import Mathlib

set_option maxRecDepth 100000

/-!
Verification of the Mastodon/Fediverse post analyzer
(`mastodon_analyzer.py`).

The program is shallowly embedded: pure Python functions become Lean
functions; each outbound effect (the HTTP page fetch, the REST API
fetch, the chat-completion call) is passed in as an explicit oracle
parameter of type `String → Except String _`, where `Except.error`
models a raised exception.  Third-party library behaviour that the
program relies on (`json.loads`, `requests.Response.raise_for_status`,
`urllib.parse.urlparse(...).netloc`) is modelled by executable Lean
functions following the libraries' documented semantics.

Dictionaries returned by the analyzer are modelled as the `Json` type
below (the analyzer returns `json.loads` output verbatim, which need
not follow any schema); `Json.obj` keeps the Python dict's insertion
order.
-/

/-- JSON values, as produced by the model of `json.loads`.  A numeric
literal is kept exactly as `mantissa * 10 ^ exp10` (Python converts to
`int`/`float`; no claim under verification inspects non-integer
numbers, so the exact decimal value is the faithful abstraction).
Object fields are listed in Python-dict insertion order. -/
inductive Json where
  | null
  | bool (b : Bool)
  | num (mantissa : Int) (exp10 : Int)
  | str (s : String)
  | arr (elems : List Json)
  | obj (fields : List (String × Json))

/-- Whitespace characters skipped by the JSON decoder (the four
characters `json.loads` skips between tokens). -/
def jsonWs (c : Char) : Bool :=
  [' ', '\t', '\n', '\r'].contains c

/-- Drops leading JSON whitespace. -/
def skipWs (l : List Char) : List Char :=
  l.dropWhile jsonWs

/-- Strips an exact literal prefix. -/
def stripLit : List Char → List Char → Option (List Char)
  | [], l => some l
  | _ :: _, [] => none
  | p :: ps, c :: cs => if p == c then stripLit ps cs else none

/-- Value of one hexadecimal digit, if the character is one. -/
def hexVal (c : Char) : Option Nat :=
  let n := Char.toNat c
  if 48 ≤ n ∧ n ≤ 57 then some (n - 48)
  else if 97 ≤ n ∧ n ≤ 102 then some (n - 87)
  else if 65 ≤ n ∧ n ≤ 70 then some (n - 55)
  else none

/-- Single-character JSON string escapes. -/
def escChar (c : Char) : Option Char :=
  [('"', '"'), ('\\', '\\'), ('/', '/'),
   ('b', Char.ofNat 8), ('f', Char.ofNat 12),
   ('n', '\n'), ('r', '\r'), ('t', '\t')].lookup c

/-- Body of a JSON string literal (after the opening quote): returns
the decoded characters and the remaining input after the closing
quote.  Unescaped control characters are rejected (strict mode of
`json.loads`); `\uXXXX` escapes are decoded, combining a high/low
surrogate pair into one character.  (A lone surrogate, which Python
would keep as a lone surrogate code unit, is not representable in
`Char` and is modelled as a decode failure.)  `fuel` bounds recursion
and never runs out when it starts at `length + 1`. -/
def parseStrChars : Nat → List Char → Option (List Char × List Char)
  | 0, _ => none
  | _ + 1, [] => none
  | fuel + 1, c :: rest =>
    if c == '"' then some ([], rest)
    else if c == '\\' then
      match rest with
      | [] => none
      | e :: rest2 =>
        if e == 'u' then
          match rest2 with
          | h1 :: h2 :: h3 :: h4 :: rest3 =>
            match hexVal h1, hexVal h2, hexVal h3, hexVal h4 with
            | some a, some b, some c3, some d =>
              let code := ((a * 16 + b) * 16 + c3) * 16 + d
              if 0xD800 ≤ code ∧ code ≤ 0xDBFF then
                match rest3 with
                | '\\' :: 'u' :: g1 :: g2 :: g3 :: g4 :: rest4 =>
                  match hexVal g1, hexVal g2, hexVal g3, hexVal g4 with
                  | some a2, some b2, some c2, some d2 =>
                    let low := ((a2 * 16 + b2) * 16 + c2) * 16 + d2
                    if 0xDC00 ≤ low ∧ low ≤ 0xDFFF then
                      match parseStrChars fuel rest4 with
                      | some (cs, r) =>
                        some (Char.ofNat (0x10000 + (code - 0xD800) * 0x400 + (low - 0xDC00)) :: cs, r)
                      | none => none
                    else none
                  | _, _, _, _ => none
                | _ => none
              else if 0xDC00 ≤ code ∧ code ≤ 0xDFFF then none
              else
                match parseStrChars fuel rest3 with
                | some (cs, r) => some (Char.ofNat code :: cs, r)
                | none => none
            | _, _, _, _ => none
          | _ => none
        else
          match escChar e with
          | some ec =>
            match parseStrChars fuel rest2 with
            | some (cs, r) => some (ec :: cs, r)
            | none => none
          | none => none
    else if c.toNat < 32 then none
    else
      match parseStrChars fuel rest with
      | some (cs, r) => some (c :: cs, r)
      | none => none

/-- Decimal value of a digit run. -/
def digitsToNat (ds : List Char) : Nat :=
  ds.foldl (fun acc c => 10 * acc + (Char.toNat c - 48)) 0

/-- Optional fraction part of a JSON number: returns the fraction
digits (empty when no `.` is present) and the remaining input. -/
def parseFrac : List Char → Option (List Char × List Char)
  | '.' :: r =>
    let ds := r.takeWhile Char.isDigit
    if ds.isEmpty then none else some (ds, r.drop ds.length)
  | l => some ([], l)

/-- Optional exponent part of a JSON number: returns the signed
exponent (0 when absent) and the remaining input. -/
def parseExp : List Char → Option (Int × List Char)
  | [] => some (0, [])
  | c :: r =>
    if c == 'e' || c == 'E' then
      let (esign, r1) :=
        match r with
        | '+' :: r2 => ((1 : Int), r2)
        | '-' :: r2 => ((-1 : Int), r2)
        | _ => ((1 : Int), r)
      let ds := r1.takeWhile Char.isDigit
      if ds.isEmpty then none
      else some (esign * Int.ofNat (digitsToNat ds), r1.drop ds.length)
    else some (0, c :: r)

/-- JSON number literal: optional minus, integer part without leading
zeros, optional fraction, optional exponent. -/
def parseNumber (l : List Char) : Option (Json × List Char) :=
  let (neg, l1) := match l with | '-' :: r => ((true : Bool), r) | _ => ((false : Bool), l)
  let ip := l1.takeWhile Char.isDigit
  if ip.isEmpty then none
  else if 2 ≤ ip.length && ip.head? == some '0' then none
  else
    match parseFrac (l1.drop ip.length) with
    | none => none
    | some (fp, rest2) =>
      match parseExp rest2 with
      | none => none
      | some (e, rest3) =>
        let mNat := digitsToNat (ip ++ fp)
        let m : Int := if neg then -(Int.ofNat mNat) else Int.ofNat mNat
        some (Json.num m (e - Int.ofNat fp.length), rest3)

/-- Inserts a key/value pair into an object field list with Python
dict semantics: an existing key keeps its position and takes the new
value, a new key is appended. -/
def insertKV : List (String × Json) → String → Json → List (String × Json)
  | [], k, v => [(k, v)]
  | (k0, v0) :: rest, k, v =>
    if k0 == k then (k0, v) :: rest else (k0, v0) :: insertKV rest k v

mutual

/-- One JSON value (after optional leading whitespace) and the
remaining input.  `fuel` bounds the recursion; `2 * length + 2` never
runs out, since at least one character is consumed per two nested
calls. -/
def parseVal : Nat → List Char → Option (Json × List Char)
  | 0, _ => none
  | fuel + 1, l =>
    match stripLit "null".data (skipWs l) with
    | some r => some (Json.null, r)
    | none =>
    match stripLit "true".data (skipWs l) with
    | some r => some (Json.bool true, r)
    | none =>
    match stripLit "false".data (skipWs l) with
    | some r => some (Json.bool false, r)
    | none =>
    match skipWs l with
    | '"' :: r =>
      match parseStrChars (r.length + 1) r with
      | some (cs, r2) => some (Json.str (String.mk cs), r2)
      | none => none
    | '[' :: r =>
      match skipWs r with
      | ']' :: r2 => some (Json.arr [], r2)
      | r2 =>
        match parseArrItems fuel r2 with
        | some (vs, r3) => some (Json.arr vs, r3)
        | none => none
    | '\x7b' :: r =>
      match skipWs r with
      | '\x7d' :: r2 => some (Json.obj [], r2)
      | r2 =>
        match parseObjItems fuel r2 with
        | some (kvs, r3) =>
          some (Json.obj (kvs.foldl (fun acc kv => insertKV acc kv.1 kv.2) []), r3)
        | none => none
    | r => parseNumber r

/-- Comma-separated JSON array elements up to and including the
closing bracket. -/
def parseArrItems : Nat → List Char → Option (List Json × List Char)
  | 0, _ => none
  | fuel + 1, l =>
    match parseVal fuel l with
    | none => none
    | some (v, r) =>
      match skipWs r with
      | ',' :: r2 =>
        match parseArrItems fuel r2 with
        | some (vs, r3) => some (v :: vs, r3)
        | none => none
      | ']' :: r2 => some ([v], r2)
      | _ => none

/-- Comma-separated JSON object members up to and including the
closing brace, in source order (duplicates not yet merged). -/
def parseObjItems : Nat → List Char → Option (List (String × Json) × List Char)
  | 0, _ => none
  | fuel + 1, l =>
    match l with
    | '"' :: r =>
      match parseStrChars (r.length + 1) r with
      | none => none
      | some (kcs, r2) =>
        match skipWs r2 with
        | ':' :: r3 =>
          match parseVal fuel r3 with
          | none => none
          | some (v, r4) =>
            match skipWs r4 with
            | ',' :: r5 =>
              match parseObjItems fuel (skipWs r5) with
              | some (kvs, r6) => some ((String.mk kcs, v) :: kvs, r6)
              | none => none
            | '\x7d' :: r5 => some ([(String.mk kcs, v)], r5)
            | _ => none
        | _ => none
    | _ => none

end

/-- Model of Python `json.loads`: decodes the whole string (allowing
surrounding whitespace) or fails.  `Except`-style failure stands for
`json.JSONDecodeError`. -/
def json_loads (s : String) : Option Json :=
  match parseVal (2 * s.data.length + 2) s.data with
  | some (v, rest) => if (skipWs rest).isEmpty then some v else none
  | none => none

/-- Position of the last occurrence of `c` in `l`, if any. -/
def lastIdxOf (c : Char) (l : List Char) : Option Nat :=
  match l.reverse.findIdx? (fun x => x == c) with
  | some k => some (l.length - 1 - k)
  | none => none

/-- Model of `re.search(r'\{.*\}', result, re.DOTALL)`: the match, if
any, spans from the first `{` in the string to the last `}`, provided
that `}` comes after that `{` (the leftmost match start is the first
`{`; the greedy `.*` with DOTALL then reaches the last `}`). -/
def braceSub (s : String) : Option String :=
  match s.data.findIdx? (fun x => x == '\x7b'), lastIdxOf '\x7d' s.data with
  | some i, some j =>
    if i < j then some (String.mk ((s.data.drop i).take (j + 1 - i))) else none
  | _, _ => none

/-- Substring test on character lists (Python's `in` on `str`). -/
def containsSub (pat : List Char) : List Char → Bool
  | [] => pat.isEmpty
  | c :: rest => pat.isPrefixOf (c :: rest) || containsSub pat rest

/-- Model of `pat in s.lower()`: substring test after lowercasing `s`
character by character. -/
def lowerContains (s pat : String) : Bool :=
  containsSub pat.data (s.data.map Char.toLower)

/-- Model of `ScamAnalyzer._parse_analysis_result` (lines 262-285):
extract the brace-delimited substring of the model reply; on a
successful decode return the decoded value verbatim; with no braces
degrade to the keyword heuristic; on a failed decode return the parse
error object. -/
def _parse_analysis_result (result : String) : Json :=
  match braceSub result with
  | some sub =>
    match json_loads sub with
    | some v => v
    | none =>
      Json.obj [("error", Json.str "Could not parse analysis result"),
                ("is_suspicious", Json.bool false),
                ("confidence", Json.num 0 0),
                ("explanation", Json.str result)]
  | none =>
    Json.obj [("is_suspicious", Json.bool (lowerContains result "suspicious" || lowerContains result "scam")),
              ("confidence", Json.num 50 0),
              ("category", Json.str "unclear"),
              ("explanation", Json.str result),
              ("red_flags", Json.arr []),
              ("recommendations", Json.str "Manual review recommended")]

/-- Post record produced by `MastodonPostExtractor` (the dict built at
lines 67-73 and 117-123); fields in the dict's construction order. -/
structure PostRecord where
  url : String
  content : String
  author : String
  timestamp : String
  «instance» : String
deriving DecidableEq, Repr

/-- Model of `ScamAnalyzer._create_analysis_prompt` (lines 225-260):
the f-string template with `content`, `author` and `instance`
interpolated. -/
def _create_analysis_prompt (content author «instance» : String) : String :=
  "\nAnalyze the following social media post for potential scam, phishing, or fraudulent content:\n\nPOST CONTENT:\n"
  ++ content
  ++ "\n\nAUTHOR: " ++ author
  ++ "\nINSTANCE: " ++ «instance»
  ++ "\n\nPlease analyze this post and determine if it appears to be:\n1. A scam or fraudulent scheme\n2. A phishing attempt\n3. Legitimate content\n\nConsider these factors:\n- Urgency tactics (\"act now\", \"limited time\")\n- Requests for personal information\n- Suspicious links or promises\n- Too-good-to-be-true offers\n- Impersonation attempts\n- Grammar and spelling issues\n- Cryptocurrency or investment schemes\n- Fake giveaways or contests\n\nRespond in JSON format with:\n\x7b\n    \"is_suspicious\": boolean,\n    \"confidence\": number (0-100),\n    \"category\": \"scam|phishing|legitimate|unclear\",\n    \"explanation\": \"detailed explanation of your analysis\",\n    \"red_flags\": [\"list\", \"of\", \"specific\", \"concerns\"],\n    \"recommendations\": \"what users should do\"\n\x7d\n"

/-- Model of `ScamAnalyzer.analyze_post` (lines 173-223).  `net`
models `self.client.chat.completions.create(...)` followed by reading
`.choices[0].message.content`: given the user prompt it returns the
model's reply text, or `Except.error` for a raised exception (caught
at lines 217-223). -/
def analyze_post (net : String → Except String String) (post_data : PostRecord) : Json :=
  let content := post_data.content
  let author := post_data.author
  let «instance» := post_data.«instance»
  if content = "" then
    Json.obj [("error", Json.str "No content to analyze"),
              ("is_suspicious", Json.bool false),
              ("confidence", Json.num 0 0),
              ("explanation", Json.str "No content found in the post")]
  else
    match net (_create_analysis_prompt content author «instance») with
    | Except.ok reply => _parse_analysis_result reply
    | Except.error e =>
      Json.obj [("error", Json.str ("Analysis failed: " ++ e)),
                ("is_suspicious", Json.bool false),
                ("confidence", Json.num 0 0),
                ("explanation", Json.str "Could not complete analysis due to API error")]

/-- Scan of `re.search`: tries the matcher `f` at every start
position of the subject, leftmost first, and returns the first
success.  `f` receives the suffix starting at the candidate position
and returns the captured group on a match at that position. -/
def reSearch (f : List Char → Option (List Char)) : List Char → Option (List Char)
  | [] => f []
  | c :: rest =>
    match f (c :: rest) with
    | some r => some r
    | none => reSearch f rest

/-- Maximal digit run at the head of the input, required nonempty:
the `(\d+)` capture group closing each post-ID pattern.  (`\d` is
modelled as the ASCII digits; Python's `\d` also accepts other
Unicode decimal digits, which the URLs in scope do not use.) -/
def leadDigits (l : List Char) : Option (List Char) :=
  let ds := l.takeWhile Char.isDigit
  if ds.isEmpty then none else some ds

/-- Anchored match of `/statuses/(\d+)` at the current position. -/
def tryStatuses (l : List Char) : Option (List Char) :=
  match stripLit "/statuses/".data l with
  | some rest => leadDigits rest
  | none => none

/-- Anchored match of `/@[^/]+/(\d+)` at the current position: `/@`,
then at least one non-slash character up to the next slash, then the
digit capture.  (The greedy `[^/]+` cannot cross a slash, and
backtracking it cannot make the following literal `/` match anything
but that slash, so the regex matches here exactly under these
conditions.) -/
def tryAtUser (l : List Char) : Option (List Char) :=
  match l with
  | '/' :: '@' :: rest =>
    let seg := rest.takeWhile (fun c => c != '/')
    if seg.isEmpty then none
    else
      match rest.drop seg.length with
      | '/' :: rest2 => leadDigits rest2
      | _ => none
  | _ => none

/-- Anchored match of `/posts/(\d+)` at the current position. -/
def tryPosts (l : List Char) : Option (List Char) :=
  match stripLit "/posts/".data l with
  | some rest => leadDigits rest
  | none => none

/-- Anchored match of `/status/(\d+)` at the current position. -/
def tryStatus (l : List Char) : Option (List Char) :=
  match stripLit "/status/".data l with
  | some rest => leadDigits rest
  | none => none

/-- Model of `MastodonPostExtractor._extract_post_id` (lines
146-160): the four regex patterns are searched in declaration order
and the first pattern that matches anywhere returns its captured
digit group. -/
def _extract_post_id (url : String) : Option String :=
  match reSearch tryStatuses url.data with
  | some d => some (String.mk d)
  | none =>
    match reSearch tryAtUser url.data with
    | some d => some (String.mk d)
    | none =>
      match reSearch tryPosts url.data with
      | some d => some (String.mk d)
      | none =>
        match reSearch tryStatus url.data with
        | some d => some (String.mk d)
        | none => none

/-- Abstraction of a parsed HTML page (`BeautifulSoup`): `select_one
sel` is the stripped text (`get_text(strip=True)`) of the first truthy
element matching the CSS selector `sel`, or `none` when no element
matches; `og_description` is the `content` attribute of the
`<meta property="og:description">` tag, or `none` when the tag is
absent (a tag without the attribute yields `some ""`, the `.get`
default). -/
structure Soup where
  select_one : String → Option String
  og_description : Option String

/-- Content selectors tried in order (lines 76-84). -/
def content_selectors : List String :=
  [".status__content",
   ".detailed-status__wrapper .status__content",
   "[data-testid=\"status-content\"]",
   ".post-content",
   ".toot-content",
   "article .content",
   ".status-content"]

/-- Author selectors tried in order (lines 93-99). -/
def author_selectors : List String :=
  [".status__display-name strong",
   ".detailed-status__display-name strong",
   ".display-name__account",
   ".author-name",
   ".username"]

/-- First-match-wins walk over a selector list: the text of the first
selector that matches, `""` when none does (the loop of lines 86-90
and 101-105 leaving the field at its initial value). -/
def firstSelectorText (soup : Soup) : List String → String
  | [] => ""
  | sel :: rest =>
    match soup.select_one sel with
    | some t => t
    | none => firstSelectorText soup rest

/-- Scheme characters allowed after the first letter of a URL scheme
(`urllib.parse`). -/
def isSchemeChar (c : Char) : Bool :=
  c.isAlpha || c.isDigit || c == '+' || c == '-' || c == '.'

/-- Drops a leading `scheme:` from a URL if one is present
(`urllib.parse` recognises a scheme as a letter followed by
letters/digits/`+`/`-`/`.` before a `:`). -/
def dropScheme (l : List Char) : List Char :=
  match l.findIdx? (fun c => c == ':') with
  | some i =>
    if 1 ≤ i ∧ (l.take i).all isSchemeChar ∧ (l.head?.map Char.isAlpha).getD false then
      l.drop (i + 1)
    else l
  | none => l

/-- Model of `urlparse(url).netloc`: after removing a scheme, the
network location is the text between a leading `//` and the next
`/`, `?` or `#`; a URL with no `//` has an empty netloc. -/
def netloc (url : String) : String :=
  match dropScheme url.data with
  | '/' :: '/' :: rest =>
    String.mk (rest.takeWhile (fun c => c != '/' && c != '?' && c != '#'))
  | _ => ""

/-- Model of `MastodonPostExtractor._extract_from_html` (lines
65-113): content and author by first-match-wins selector lists, then
the `og:description` fallback when content is still empty. -/
def _extract_from_html (soup : Soup) (url : String) : PostRecord :=
  let content := firstSelectorText soup content_selectors
  let author := firstSelectorText soup author_selectors
  let content2 :=
    if content = "" then
      match soup.og_description with
      | some c => c
      | none => content
    else content
  { url := url, content := content2, author := author, timestamp := "", «instance» := netloc url }

/-- Response of the status REST endpoint as the program consumes it:
`content_text` models
`BeautifulSoup(data.get('content', ''), 'html.parser').get_text(strip=True)`,
`display_name` models `data.get('account', {}).get('display_name', '')`
and `created_at` models `data.get('created_at', '')`.  An exception
anywhere inside the `try` (the GET itself or `response.json()`) is the
oracle's `Except.error`. -/
structure ApiResponse where
  status_code : Nat
  content_text : String
  display_name : String
  created_at : String

/-- Model of `MastodonPostExtractor._try_api_extraction` (lines
115-144): builds a fresh record (url/instance only), finds a post ID,
and fills content/author/timestamp from the REST endpoint only on
HTTP 200; any exception is swallowed and the fresh record returned. -/
def _try_api_extraction (apiGet : String → Except String ApiResponse)
    (url : String) (netlocArg : String) : PostRecord :=
  let post_data : PostRecord :=
    { url := url, content := "", author := "", timestamp := "", «instance» := netlocArg }
  match _extract_post_id url with
  | none => post_data
  | some post_id =>
    let api_url := "https://" ++ netlocArg ++ "/api/v1/statuses/" ++ post_id
    match apiGet api_url with
    | Except.error _ => post_data
    | Except.ok resp =>
      if resp.status_code = 200 then
        { post_data with
            content := resp.content_text,
            author := resp.display_name,
            timestamp := resp.created_at }
      else post_data

/-- HTTP response of the primary page fetch: status code plus the
parsed page (`BeautifulSoup(response.text, 'html.parser')`). -/
structure HttpResponse where
  status_code : Nat
  soup : Soup

/-- Model of `requests.Response.raise_for_status`, per its documented
behaviour: raises exactly for 4xx and 5xx status codes. -/
def raise_for_status (r : HttpResponse) : Except String Unit :=
  if 400 ≤ r.status_code ∧ r.status_code < 600 then
    Except.error ("HTTP error " ++ toString r.status_code)
  else Except.ok ()

/-- Model of `MastodonPostExtractor.extract_post_data` (lines 32-63):
fetch the page (`fetch` models `self.session.get`, `Except.error` a
raised network error or timeout), raise on HTTP error status, extract
from HTML, fall back to the REST endpoint when content is empty, and
turn any raised exception into `none`. -/
def extract_post_data (fetch : String → Except String HttpResponse)
    (apiGet : String → Except String ApiResponse) (url : String) : Option PostRecord :=
  match fetch url with
  | Except.error _ => none
  | Except.ok response =>
    match raise_for_status response with
    | Except.error _ => none
    | Except.ok _ =>
      let post_data := _extract_from_html response.soup url
      let post_data2 :=
        if post_data.content = "" then _try_api_extraction apiGet url (netloc url)
        else post_data
      some post_data2

/-- Outcome of one CLI run: an early `sys.exit` with its code and
stderr message, or a completed run carrying the extracted record and
the analysis. -/
inductive CliOutcome where
  | exited (code : Nat) (message : String)
  | finished (post_data : PostRecord) (analysis : Json)

/-- Model of the `analyze` CLI command (lines 294-333) up to output
rendering: missing API key exits 1, failed extraction exits 1,
otherwise the post is analyzed.  (Output formatting is glue outside
the verified scope.) -/
def analyze (fetch : String → Except String HttpResponse)
    (apiGet : String → Except String ApiResponse)
    (net : String → Except String String)
    (url : String) (api_key : String) : CliOutcome :=
  if api_key = "" then
    CliOutcome.exited 1 "Error: OpenRouter API key is required. Set OPENROUTER_API_KEY environment variable or use --api-key option."
  else
    match extract_post_data fetch apiGet url with
    | none => CliOutcome.exited 1 "Error: Could not extract post data from URL"
    | some post_data => CliOutcome.finished post_data (analyze_post net post_data)

/-- Anchored matcher `f` (one of the post-ID patterns) matches
somewhere in `s`: the declarative reading of "the URL contains a
substring of this shape". -/
def MatchesPat (f : List Char → Option (List Char)) (s : List Char) : Prop :=
  ∃ n cap, f (List.drop n s) = some cap

/-- Matcher `f` captures `cap` at its leftmost match position in `s`:
the declarative reading of what `re.search` returns. -/
def FirstCaptureAt (f : List Char → Option (List Char)) (s : List Char) (cap : List Char) : Prop :=
  ∃ n, f (List.drop n s) = some cap ∧ ∀ m, m < n → f (List.drop m s) = none

/-- The scan `reSearch` succeeds with `r` exactly when the anchored
matcher succeeds with `r` at some position and fails at every earlier
position. -/
theorem reSearch_eq_some_iff (f : List Char → Option (List Char)) :
    ∀ (s : List Char) (r : List Char),
      reSearch f s = some r ↔
        ∃ n, f (List.drop n s) = some r ∧ ∀ m, m < n → f (List.drop m s) = none := by
  intro s
  induction s with
  | nil =>
    intro r
    constructor
    · intro h
      exact ⟨0, h, fun m hm => absurd hm (Nat.not_lt_zero m)⟩
    · rintro ⟨n, hn, -⟩
      simpa using hn
  | cons c t ih =>
    intro r
    constructor
    · intro h
      rw [reSearch] at h
      cases hf : f (c :: t) with
      | some v =>
        rw [hf] at h
        refine ⟨0, ?_, fun m hm => absurd hm (Nat.not_lt_zero m)⟩
        simpa [hf] using h
      | none =>
        rw [hf] at h
        obtain ⟨n, h1, h2⟩ := (ih r).mp h
        refine ⟨n + 1, by simpa [List.drop_succ_cons] using h1, ?_⟩
        intro m hm
        cases m with
        | zero => simpa using hf
        | succ m =>
          have : m < n := Nat.lt_of_succ_lt_succ hm
          simpa [List.drop_succ_cons] using h2 m this
    · rintro ⟨n, h1, h2⟩
      cases n with
      | zero =>
        rw [reSearch]
        simp only [List.drop] at h1
        rw [h1]
      | succ n =>
        have hf : f (c :: t) = none := by simpa using h2 0 (Nat.succ_pos n)
        rw [reSearch, hf]
        refine (ih r).mpr ⟨n, by simpa [List.drop_succ_cons] using h1, ?_⟩
        intro m hm
        simpa [List.drop_succ_cons] using h2 (m + 1) (Nat.succ_lt_succ hm)

/-- The scan `reSearch` fails exactly when the anchored matcher fails
at every position. -/
theorem reSearch_eq_none_iff (f : List Char → Option (List Char)) :
    ∀ s : List Char, reSearch f s = none ↔ ∀ n, f (List.drop n s) = none := by
  intro s
  induction s with
  | nil =>
    constructor
    · intro h n
      simpa using h
    · intro h
      simpa using h 0
  | cons c t ih =>
    constructor
    · intro h n
      rw [reSearch] at h
      cases hf : f (c :: t) with
      | some v => rw [hf] at h; exact absurd h (by simp)
      | none =>
        rw [hf] at h
        cases n with
        | zero => simpa using hf
        | succ n => simpa [List.drop_succ_cons] using ih.mp h n
    · intro h
      have hf : f (c :: t) = none := by simpa using h 0
      rw [reSearch, hf]
      exact ih.mpr fun n => by simpa [List.drop_succ_cons] using h (n + 1)

/-- A failed scan refutes the declarative match predicate. -/
theorem not_MatchesPat_of_none (f : List Char → Option (List Char)) (s : List Char)
    (h : reSearch f s = none) : ¬ MatchesPat f s := by
  rintro ⟨n, cap, hc⟩
  have := (reSearch_eq_none_iff f s).mp h n
  rw [this] at hc
  exact Option.noConfusion hc

/-- C2: for every URL containing a substring matching one of the
shapes `/statuses/<digits>`, `/@user/<digits>`, `/posts/<digits>`,
`/status/<digits>` (the anchored matchers `tryStatuses`, `tryAtUser`,
`tryPosts`, `tryStatus`), `_extract_post_id` returns the digit
sequence captured at the leftmost match of the first pattern, in
declaration order, that matches anywhere; for a URL matching none of
the four patterns it returns `none`. -/
theorem C2_extract_post_id_characterisation (url : String) :
    match _extract_post_id url with
    | none =>
      ¬ MatchesPat tryStatuses url.data ∧ ¬ MatchesPat tryAtUser url.data ∧
        ¬ MatchesPat tryPosts url.data ∧ ¬ MatchesPat tryStatus url.data
    | some cap =>
      FirstCaptureAt tryStatuses url.data cap.data ∨
        (¬ MatchesPat tryStatuses url.data ∧ FirstCaptureAt tryAtUser url.data cap.data) ∨
        (¬ MatchesPat tryStatuses url.data ∧ ¬ MatchesPat tryAtUser url.data ∧
          FirstCaptureAt tryPosts url.data cap.data) ∨
        (¬ MatchesPat tryStatuses url.data ∧ ¬ MatchesPat tryAtUser url.data ∧
          ¬ MatchesPat tryPosts url.data ∧ FirstCaptureAt tryStatus url.data cap.data) := by
  cases h1 : reSearch tryStatuses url.data with
  | some d =>
    have he : _extract_post_id url = some (String.mk d) := by
      simp only [_extract_post_id, h1]
    rw [he]
    exact Or.inl ((reSearch_eq_some_iff tryStatuses url.data d).mp h1)
  | none =>
    cases h2 : reSearch tryAtUser url.data with
    | some d =>
      have he : _extract_post_id url = some (String.mk d) := by
        simp only [_extract_post_id, h1, h2]
      rw [he]
      exact Or.inr (Or.inl ⟨not_MatchesPat_of_none _ _ h1,
        (reSearch_eq_some_iff tryAtUser url.data d).mp h2⟩)
    | none =>
      cases h3 : reSearch tryPosts url.data with
      | some d =>
        have he : _extract_post_id url = some (String.mk d) := by
          simp only [_extract_post_id, h1, h2, h3]
        rw [he]
        exact Or.inr (Or.inr (Or.inl ⟨not_MatchesPat_of_none _ _ h1,
          not_MatchesPat_of_none _ _ h2,
          (reSearch_eq_some_iff tryPosts url.data d).mp h3⟩))
      | none =>
        cases h4 : reSearch tryStatus url.data with
        | some d =>
          have he : _extract_post_id url = some (String.mk d) := by
            simp only [_extract_post_id, h1, h2, h3, h4]
          rw [he]
          exact Or.inr (Or.inr (Or.inr ⟨not_MatchesPat_of_none _ _ h1,
            not_MatchesPat_of_none _ _ h2, not_MatchesPat_of_none _ _ h3,
            (reSearch_eq_some_iff tryStatus url.data d).mp h4⟩))
        | none =>
          have he : _extract_post_id url = none := by
            simp only [_extract_post_id, h1, h2, h3, h4]
          rw [he]
          exact ⟨not_MatchesPat_of_none _ _ h1, not_MatchesPat_of_none _ _ h2,
            not_MatchesPat_of_none _ _ h3, not_MatchesPat_of_none _ _ h4⟩

/-- The executable substring test agrees with the declarative
`List.IsInfix`. -/
theorem containsSub_eq_true_iff (pat : List Char) :
    ∀ l : List Char, containsSub pat l = true ↔ pat <:+: l := by
  intro l
  induction l with
  | nil =>
    rw [containsSub]
    simp [List.isEmpty_iff]
  | cons c rest ih =>
    rw [containsSub]
    simp [List.infix_cons_iff, List.isPrefixOf_iff_prefix, ih]

/-- C1: with an empty `content` field, `analyze_post` returns the
fixed "No content to analyze" error object with `is_suspicious =
false` and `confidence = 0`, for every network oracle `net` — the
classification service is never consulted. -/
theorem C1_empty_content_short_circuit (net : String → Except String String)
    (post_data : PostRecord) (h : post_data.content = "") :
    analyze_post net post_data =
      Json.obj [("error", Json.str "No content to analyze"),
                ("is_suspicious", Json.bool false),
                ("confidence", Json.num 0 0),
                ("explanation", Json.str "No content found in the post")] := by
  simp [analyze_post, h]

/-- Witness for C1 at a concrete record, with an oracle that would
fail if it were called. -/
theorem C1_empty_content_short_circuit_witness :
    analyze_post (fun _ => Except.error "network down")
      { url := "https://x.y/@a/1", content := "", author := "Alice",
        timestamp := "", «instance» := "x.y" } =
      Json.obj [("error", Json.str "No content to analyze"),
                ("is_suspicious", Json.bool false),
                ("confidence", Json.num 0 0),
                ("explanation", Json.str "No content found in the post")] :=
  C1_empty_content_short_circuit (fun _ => Except.error "network down")
    { url := "https://x.y/@a/1", content := "", author := "Alice",
      timestamp := "", «instance» := "x.y" } rfl

/-- C3: whenever the brace-delimited substring of the model reply
decodes as JSON, `_parse_analysis_result` returns the decoded value
verbatim; and the example reply of spec section 8 parses to exactly
the stated structure. -/
theorem C3_parse_verbatim :
    (∀ (result sub : String) (v : Json),
        braceSub result = some sub → json_loads sub = some v →
        _parse_analysis_result result = v) ∧
    _parse_analysis_result "\x7b\"is_suspicious\": true, \"confidence\": 90, \"category\": \"phishing\", \"explanation\": \"...\", \"red_flags\": [\"urgency\"], \"recommendations\": \"Do not click\"\x7d" =
      Json.obj [("is_suspicious", Json.bool true),
                ("confidence", Json.num 90 0),
                ("category", Json.str "phishing"),
                ("explanation", Json.str "..."),
                ("red_flags", Json.arr [Json.str "urgency"]),
                ("recommendations", Json.str "Do not click")] := by
  constructor
  · intro result sub v h1 h2
    simp [_parse_analysis_result, h1, h2]
  · rfl

/-- Witness for C3's universal part at a concrete reply with
surrounding prose. -/
theorem C3_parse_verbatim_witness :
    _parse_analysis_result "Sure! \x7b\"confidence\": 7\x7d hope that helps" =
      Json.obj [("confidence", Json.num 7 0)] :=
  C3_parse_verbatim.1 "Sure! \x7b\"confidence\": 7\x7d hope that helps"
    "\x7b\"confidence\": 7\x7d" (Json.obj [("confidence", Json.num 7 0)]) rfl rfl

/-- C4: with no brace-delimited substring in the reply, the heuristic
verdict is returned: `is_suspicious` is the case-insensitive
occurrence test for "suspicious" or "scam" (stated both as the
program's lowercase substring check and declaratively as
`List.IsInfix`), confidence 50, category "unclear", the raw reply as
explanation, no red flags, and the fixed recommendation. -/
theorem C4_no_brace_heuristic (result : String) (h : braceSub result = none) :
    _parse_analysis_result result =
      Json.obj [("is_suspicious", Json.bool (lowerContains result "suspicious" || lowerContains result "scam")),
                ("confidence", Json.num 50 0),
                ("category", Json.str "unclear"),
                ("explanation", Json.str result),
                ("red_flags", Json.arr []),
                ("recommendations", Json.str "Manual review recommended")] ∧
    ((lowerContains result "suspicious" || lowerContains result "scam") = true ↔
      "suspicious".data <:+: result.data.map Char.toLower ∨
        "scam".data <:+: result.data.map Char.toLower) := by
  constructor
  · simp [_parse_analysis_result, h]
  · rw [Bool.or_eq_true, lowerContains, lowerContains,
      containsSub_eq_true_iff, containsSub_eq_true_iff]

/-- Witness for C4 at the spec's example reply, which contains
"suspicious" and no braces. -/
theorem C4_no_brace_heuristic_witness :
    _parse_analysis_result "This looks suspicious to me" =
      Json.obj [("is_suspicious", Json.bool true),
                ("confidence", Json.num 50 0),
                ("category", Json.str "unclear"),
                ("explanation", Json.str "This looks suspicious to me"),
                ("red_flags", Json.arr []),
                ("recommendations", Json.str "Manual review recommended")] :=
  (C4_no_brace_heuristic "This looks suspicious to me" rfl).1

/-- C5: a brace-delimited substring that fails to decode yields the
fixed parse-error object carrying the raw reply as explanation. -/
theorem C5_decode_failure (result sub : String) (h1 : braceSub result = some sub)
    (h2 : json_loads sub = none) :
    _parse_analysis_result result =
      Json.obj [("error", Json.str "Could not parse analysis result"),
                ("is_suspicious", Json.bool false),
                ("confidence", Json.num 0 0),
                ("explanation", Json.str result)] := by
  simp [_parse_analysis_result, h1, h2]

/-- Witness for C5 at a concrete undecodable reply. -/
theorem C5_decode_failure_witness :
    _parse_analysis_result "bad \x7boops\x7d" =
      Json.obj [("error", Json.str "Could not parse analysis result"),
                ("is_suspicious", Json.bool false),
                ("confidence", Json.num 0 0),
                ("explanation", Json.str "bad \x7boops\x7d")] :=
  C5_decode_failure "bad \x7boops\x7d" "\x7boops\x7d" rfl rfl

/-- Model of Python `'k' in analysis` on an analysis result (used by
the renderer at line 353 to route to the error display). -/
def objHasKey (j : Json) (k : String) : Bool :=
  match j with
  | Json.obj kvs => (kvs.lookup k).isSome
  | _ => false

/-- Key list of an analysis result, in insertion order. -/
def objKeys : Json → List String
  | Json.obj kvs => kvs.map Prod.fst
  | _ => []

/-- A successful structured verdict: either the heuristic verdict for
some brace-free reply, or a value decoded verbatim from some JSON
text. -/
def IsStructuredVerdict (j : Json) : Prop :=
  (∃ raw : String, braceSub raw = none ∧ _parse_analysis_result raw = j) ∨
    (∃ s : String, json_loads s = some j)

/-- Every reply parse lands in exactly one side of the dichotomy:
a structured verdict without an `error` key, or a result whose
`error` key is populated. -/
theorem parse_result_dichotomy (reply : String) :
    (IsStructuredVerdict (_parse_analysis_result reply) ∧
        objHasKey (_parse_analysis_result reply) "error" = false) ∨
      objHasKey (_parse_analysis_result reply) "error" = true := by
  cases hb : braceSub reply with
  | none =>
    left
    refine ⟨Or.inl ⟨reply, hb, rfl⟩, ?_⟩
    simp only [_parse_analysis_result, hb, objHasKey]
    rfl
  | some sub =>
    cases hj : json_loads sub with
    | none =>
      right
      simp only [_parse_analysis_result, hb, hj, objHasKey]
      rfl
    | some v =>
      have hv : _parse_analysis_result reply = v := by
        simp only [_parse_analysis_result, hb, hj]
      rw [hv]
      cases objHasKey v "error" with
      | true => exact Or.inr rfl
      | false => exact Or.inl ⟨Or.inr ⟨sub, hj⟩, rfl⟩

/-- C6: for every oracle and record, the analysis result satisfies
exactly one of "successful structured verdict with no `error` key"
and "`error` key populated" — never both, never neither. -/
theorem C6_verdict_error_dichotomy (net : String → Except String String)
    (post_data : PostRecord) :
    ((IsStructuredVerdict (analyze_post net post_data) ∧
        objHasKey (analyze_post net post_data) "error" = false) ∨
      objHasKey (analyze_post net post_data) "error" = true) ∧
    ¬ ((IsStructuredVerdict (analyze_post net post_data) ∧
        objHasKey (analyze_post net post_data) "error" = false) ∧
      objHasKey (analyze_post net post_data) "error" = true) := by
  constructor
  · by_cases hc : post_data.content = ""
    · right
      simp [analyze_post, hc, objHasKey]
    · rw [analyze_post]
      simp only [hc, if_false]
      cases hn : net (_create_analysis_prompt post_data.content post_data.author post_data.«instance») with
      | error e =>
        right
        simp [objHasKey]
      | ok reply => exact parse_result_dichotomy reply
  · rintro ⟨⟨-, hfalse⟩, htrue⟩
    rw [hfalse] at htrue
    exact Bool.noConfusion htrue

/-- C10: each of the three error-bearing results of `analyze_post`
(empty content, transport failure, parse failure) carries exactly the
keys `error`, `is_suspicious`, `confidence`, `explanation`;
`category`, `red_flags` and `recommendations` are absent. -/
theorem C10_error_result_keys (net : String → Except String String)
    (post_data : PostRecord) :
    (post_data.content = "" →
      objKeys (analyze_post net post_data) =
        ["error", "is_suspicious", "confidence", "explanation"]) ∧
    (∀ e, post_data.content ≠ "" →
      net (_create_analysis_prompt post_data.content post_data.author post_data.«instance») =
        Except.error e →
      objKeys (analyze_post net post_data) =
        ["error", "is_suspicious", "confidence", "explanation"]) ∧
    (∀ reply sub, post_data.content ≠ "" →
      net (_create_analysis_prompt post_data.content post_data.author post_data.«instance») =
        Except.ok reply →
      braceSub reply = some sub → json_loads sub = none →
      objKeys (analyze_post net post_data) =
        ["error", "is_suspicious", "confidence", "explanation"]) := by
  refine ⟨fun hc => ?_, fun e hc hn => ?_, fun reply sub hc hn hb hj => ?_⟩
  · simp [analyze_post, hc, objKeys]
  · simp [analyze_post, hc, hn, objKeys]
  · simp [analyze_post, hc, hn, _parse_analysis_result, hb, hj, objKeys]

/-- Witness for C10: all three error paths at concrete inputs. -/
theorem C10_error_result_keys_witness :
    objKeys (analyze_post (fun _ => Except.ok "ignored")
        { url := "u", content := "", author := "", timestamp := "", «instance» := "i" }) =
      ["error", "is_suspicious", "confidence", "explanation"] ∧
    objKeys (analyze_post (fun _ => Except.error "boom")
        { url := "u", content := "Hello", author := "", timestamp := "", «instance» := "i" }) =
      ["error", "is_suspicious", "confidence", "explanation"] ∧
    objKeys (analyze_post (fun _ => Except.ok "bad \x7boops\x7d")
        { url := "u", content := "Hello", author := "", timestamp := "", «instance» := "i" }) =
      ["error", "is_suspicious", "confidence", "explanation"] :=
  ⟨(C10_error_result_keys (fun _ => Except.ok "ignored")
      { url := "u", content := "", author := "", timestamp := "", «instance» := "i" }).1 rfl,
   (C10_error_result_keys (fun _ => Except.error "boom")
      { url := "u", content := "Hello", author := "", timestamp := "", «instance» := "i" }).2.1
      "boom" (by decide) rfl,
   (C10_error_result_keys (fun _ => Except.ok "bad \x7boops\x7d")
      { url := "u", content := "Hello", author := "", timestamp := "", «instance» := "i" }).2.2
      "bad \x7boops\x7d" "\x7boops\x7d" (by decide) rfl rfl rfl⟩

/-- The API-fallback record carries the url and netloc it was built
from, whatever the oracle does. -/
theorem try_api_url_instance (apiGet : String → Except String ApiResponse)
    (url netlocArg : String) :
    (_try_api_extraction apiGet url netlocArg).url = url ∧
      (_try_api_extraction apiGet url netlocArg).«instance» = netlocArg := by
  cases hid : _extract_post_id url with
  | none => simp [_try_api_extraction, hid]
  | some post_id =>
    cases hapi : apiGet ("https://" ++ netlocArg ++ "/api/v1/statuses/" ++ post_id) with
    | error e => simp [_try_api_extraction, hid, hapi]
    | ok resp =>
      by_cases hs : resp.status_code = 200
      · simp [_try_api_extraction, hid, hapi, hs]
      · simp [_try_api_extraction, hid, hapi, hs]

/-- C8: every record `extract_post_data` returns carries the original
input URL in `url` and the URL's network location in `instance`,
on both the HTML path and the API-fallback path. -/
theorem C8_url_instance_invariant (fetch : String → Except String HttpResponse)
    (apiGet : String → Except String ApiResponse) (url : String) :
    match extract_post_data fetch apiGet url with
    | none => True
    | some r => r.url = url ∧ r.«instance» = netloc url := by
  cases hf : fetch url with
  | error e => simp [extract_post_data, hf]
  | ok response =>
    cases hr : raise_for_status response with
    | error e => simp [extract_post_data, hf, hr]
    | ok u =>
      by_cases hc : (_extract_from_html response.soup url).content = ""
      · have hx : extract_post_data fetch apiGet url =
            some (_try_api_extraction apiGet url (netloc url)) := by
          simp [extract_post_data, hf, hr, hc]
        rw [hx]
        exact try_api_url_instance apiGet url (netloc url)
      · have hx : extract_post_data fetch apiGet url =
            some (_extract_from_html response.soup url) := by
          simp [extract_post_data, hf, hr, hc]
        rw [hx]
        exact ⟨rfl, rfl⟩

/-- C7 counterexample: the HTML author selectors find "Alice" but the
page has no content, the REST fallback raises, and the returned
record's author is "" — the HTML-found author is NOT preserved. -/
theorem C7_counterexample :
    (_extract_from_html
        ⟨fun sel => if sel = ".status__display-name strong" then some "Alice" else none, none⟩
        "https://mastodon.social/@user/123").author = "Alice" ∧
    (_extract_from_html
        ⟨fun sel => if sel = ".status__display-name strong" then some "Alice" else none, none⟩
        "https://mastodon.social/@user/123").content = "" ∧
    extract_post_data
      (fun _ => Except.ok ⟨200,
        ⟨fun sel => if sel = ".status__display-name strong" then some "Alice" else none, none⟩⟩)
      (fun _ => Except.error "connection refused")
      "https://mastodon.social/@user/123" =
      some { url := "https://mastodon.social/@user/123", content := "", author := "",
             timestamp := "", «instance» := "mastodon.social" } :=
  ⟨rfl, rfl, rfl⟩

/-- C7 amended: if HTML extraction (selectors plus `og:description`)
yields empty content and the REST fallback raises, the record
returned is the fresh record built by the fallback — url and instance
set, every other field empty; fields found by the HTML pass (such as
the author) are discarded. -/
theorem C7_amended_fallback_discards_html_fields
    (fetch : String → Except String HttpResponse)
    (apiGet : String → Except String ApiResponse)
    (url : String) (response : HttpResponse) (err : String)
    (h1 : fetch url = Except.ok response)
    (h2 : raise_for_status response = Except.ok ())
    (h3 : (_extract_from_html response.soup url).content = "")
    (h4 : ∀ u, apiGet u = Except.error err) :
    extract_post_data fetch apiGet url =
      some { url := url, content := "", author := "", timestamp := "",
             «instance» := netloc url } := by
  have hx : extract_post_data fetch apiGet url =
      some (_try_api_extraction apiGet url (netloc url)) := by
    simp [extract_post_data, h1, h2, h3]
  rw [hx]
  cases hid : _extract_post_id url with
  | none => simp [_try_api_extraction, hid]
  | some post_id => simp [_try_api_extraction, hid, h4]

/-- Witness for C7's amended theorem at the counterexample's input. -/
theorem C7_amended_fallback_discards_html_fields_witness :
    extract_post_data
      (fun _ => Except.ok ⟨200,
        ⟨fun sel => if sel = ".status__display-name strong" then some "Alice" else none, none⟩⟩)
      (fun _ => Except.error "connection refused")
      "https://mastodon.social/@user/123" =
      some { url := "https://mastodon.social/@user/123", content := "", author := "",
             timestamp := "",
             «instance» := netloc "https://mastodon.social/@user/123" } :=
  C7_amended_fallback_discards_html_fields
    (fun _ => Except.ok ⟨200,
      ⟨fun sel => if sel = ".status__display-name strong" then some "Alice" else none, none⟩⟩)
    (fun _ => Except.error "connection refused")
    "https://mastodon.social/@user/123"
    ⟨200, ⟨fun sel => if sel = ".status__display-name strong" then some "Alice" else none, none⟩⟩
    "connection refused" rfl rfl rfl (fun _ => rfl)

/-- C9 counterexample: a 304 response is not 2xx, yet
`raise_for_status` does not raise for it, so `extract_post_data`
returns a (contentless) record instead of `none`, and the CLI
finishes instead of exiting non-zero. -/
theorem C9_counterexample :
    ¬ (200 ≤ 304 ∧ 304 < 300) ∧
    extract_post_data (fun _ => Except.ok ⟨304, ⟨fun _ => none, none⟩⟩)
      (fun _ => Except.error "refused") "https://e.social/about" =
      some { url := "https://e.social/about", content := "", author := "",
             timestamp := "", «instance» := "e.social" } ∧
    analyze (fun _ => Except.ok ⟨304, ⟨fun _ => none, none⟩⟩)
      (fun _ => Except.error "refused") (fun _ => Except.ok "unused reply")
      "https://e.social/about" "some-key" =
      CliOutcome.finished
        { url := "https://e.social/about", content := "", author := "",
          timestamp := "", «instance» := "e.social" }
        (Json.obj [("error", Json.str "No content to analyze"),
                   ("is_suspicious", Json.bool false),
                   ("confidence", Json.num 0 0),
                   ("explanation", Json.str "No content found in the post")]) :=
  ⟨by decide, rfl, rfl⟩

/-- C9 amended: a raised network error or timeout on the primary
fetch, or a 4xx/5xx response status — but not every non-2xx status —
makes `extract_post_data` return `none`, upon which the CLI reports
the failure and exits with status 1. -/
theorem C9_amended_fatal_fetch_failures
    (fetch : String → Except String HttpResponse)
    (apiGet : String → Except String ApiResponse)
    (net : String → Except String String)
    (url api_key : String) (hkey : api_key ≠ "") :
    (∀ e, fetch url = Except.error e →
      extract_post_data fetch apiGet url = none ∧
      analyze fetch apiGet net url api_key =
        CliOutcome.exited 1 "Error: Could not extract post data from URL") ∧
    (∀ response, fetch url = Except.ok response →
      400 ≤ response.status_code → response.status_code < 600 →
      extract_post_data fetch apiGet url = none ∧
      analyze fetch apiGet net url api_key =
        CliOutcome.exited 1 "Error: Could not extract post data from URL") := by
  constructor
  · intro e he
    have hx : extract_post_data fetch apiGet url = none := by
      simp [extract_post_data, he]
    exact ⟨hx, by simp [analyze, hkey, hx]⟩
  · intro response hr h4 h6
    have hraise : raise_for_status response =
        Except.error ("HTTP error " ++ toString response.status_code) := by
      rw [raise_for_status, if_pos ⟨h4, h6⟩]
    have hx : extract_post_data fetch apiGet url = none := by
      simp [extract_post_data, hr, hraise]
    exact ⟨hx, by simp [analyze, hkey, hx]⟩

/-- Witness for C9's amended theorem: a raised timeout and a 500
response, each at concrete inputs. -/
theorem C9_amended_fatal_fetch_failures_witness :
    (extract_post_data (fun _ => Except.error "timeout") (fun _ => Except.error "x")
        "https://e.social/@a/1" = none ∧
      analyze (fun _ => Except.error "timeout") (fun _ => Except.error "x")
        (fun _ => Except.ok "r") "https://e.social/@a/1" "some-key" =
        CliOutcome.exited 1 "Error: Could not extract post data from URL") ∧
    (extract_post_data (fun _ => Except.ok ⟨500, ⟨fun _ => none, none⟩⟩)
        (fun _ => Except.error "x") "https://e.social/@a/1" = none ∧
      analyze (fun _ => Except.ok ⟨500, ⟨fun _ => none, none⟩⟩) (fun _ => Except.error "x")
        (fun _ => Except.ok "r") "https://e.social/@a/1" "some-key" =
        CliOutcome.exited 1 "Error: Could not extract post data from URL") :=
  ⟨(C9_amended_fatal_fetch_failures (fun _ => Except.error "timeout")
      (fun _ => Except.error "x") (fun _ => Except.ok "r")
      "https://e.social/@a/1" "some-key" (by decide)).1 "timeout" rfl,
   (C9_amended_fatal_fetch_failures (fun _ => Except.ok ⟨500, ⟨fun _ => none, none⟩⟩)
      (fun _ => Except.error "x") (fun _ => Except.ok "r")
      "https://e.social/@a/1" "some-key" (by decide)).2
      ⟨500, ⟨fun _ => none, none⟩⟩ rfl (by decide) (by decide)⟩


/-- Witness for C2 at the spec's example URL: the `@user` pattern is
the first to match and captures `123456789`. -/
theorem C2_extract_post_id_characterisation_witness :
    FirstCaptureAt tryStatuses "https://mastodon.social/@user/123456789".data "123456789".data ∨
      (¬ MatchesPat tryStatuses "https://mastodon.social/@user/123456789".data ∧
        FirstCaptureAt tryAtUser "https://mastodon.social/@user/123456789".data "123456789".data) ∨
      (¬ MatchesPat tryStatuses "https://mastodon.social/@user/123456789".data ∧
        ¬ MatchesPat tryAtUser "https://mastodon.social/@user/123456789".data ∧
        FirstCaptureAt tryPosts "https://mastodon.social/@user/123456789".data "123456789".data) ∨
      (¬ MatchesPat tryStatuses "https://mastodon.social/@user/123456789".data ∧
        ¬ MatchesPat tryAtUser "https://mastodon.social/@user/123456789".data ∧
        ¬ MatchesPat tryPosts "https://mastodon.social/@user/123456789".data ∧
        FirstCaptureAt tryStatus "https://mastodon.social/@user/123456789".data "123456789".data) :=
  C2_extract_post_id_characterisation "https://mastodon.social/@user/123456789"

/-- Witness for C6 at a concrete record and oracle. -/
theorem C6_verdict_error_dichotomy_witness :
    ((IsStructuredVerdict (analyze_post (fun _ => Except.ok "This looks suspicious to me")
          { url := "u", content := "Hi", author := "", timestamp := "", «instance» := "i" }) ∧
        objHasKey (analyze_post (fun _ => Except.ok "This looks suspicious to me")
          { url := "u", content := "Hi", author := "", timestamp := "", «instance» := "i" })
          "error" = false) ∨
      objHasKey (analyze_post (fun _ => Except.ok "This looks suspicious to me")
        { url := "u", content := "Hi", author := "", timestamp := "", «instance» := "i" })
        "error" = true) ∧
    ¬ ((IsStructuredVerdict (analyze_post (fun _ => Except.ok "This looks suspicious to me")
          { url := "u", content := "Hi", author := "", timestamp := "", «instance» := "i" }) ∧
        objHasKey (analyze_post (fun _ => Except.ok "This looks suspicious to me")
          { url := "u", content := "Hi", author := "", timestamp := "", «instance» := "i" })
          "error" = false) ∧
      objHasKey (analyze_post (fun _ => Except.ok "This looks suspicious to me")
        { url := "u", content := "Hi", author := "", timestamp := "", «instance» := "i" })
        "error" = true) :=
  C6_verdict_error_dichotomy (fun _ => Except.ok "This looks suspicious to me")
    { url := "u", content := "Hi", author := "", timestamp := "", «instance» := "i" }

/-- Witness for C8 at a concrete fetch (page carrying only an
`og:description`) and URL. -/
theorem C8_url_instance_invariant_witness :
    match extract_post_data (fun _ => Except.ok ⟨200, ⟨fun _ => none, some "Fallback text"⟩⟩)
        (fun _ => Except.error "x") "https://mastodon.social/@user/99" with
    | none => True
    | some r => r.url = "https://mastodon.social/@user/99" ∧
        r.«instance» = netloc "https://mastodon.social/@user/99" :=
  C8_url_instance_invariant (fun _ => Except.ok ⟨200, ⟨fun _ => none, some "Fallback text"⟩⟩)
    (fun _ => Except.error "x") "https://mastodon.social/@user/99"
